import Mathlib

/-!
Verification of the RoadWatch Kerala report-submission backend.

The development shallowly embeds the Python sources:
  - `backend.py` / `files/backend.py` : plate validation, AI moderation with
    fail-safe fallbacks, duplicate-report throttling, the submission pipeline,
    and the reports-by-plate read endpoint;
  - `models.py`  : the `Report` row and its moderation lifecycle;
  - `user_model.py` : the `User` row and its reputation ledger;
  - `auth.py`    : the `optional_auth` decorator.

External collaborators (the Anthropic moderation service, `json.loads`, the
Firebase verifier, and the transactional database session) are modelled as
explicit oracle inputs: the moderation call is given by its outcome, the JSON
parser and the identity verifier are function parameters, and the commit is an
atomic boolean oracle (a failed commit raises, and the `except` handler rolls
the session back).  Machine floats (`reputation_score`, confidence values) are
modelled as exact rationals; every value the code manipulates (multiples of
0.5 clamped to the range 0 to 100) is exactly representable in both.  Strings
are modelled as their character lists; `str.upper` and the plate regular
expression are modelled for ASCII inputs, which covers every string the
claims and counterexamples mention.
-/

namespace RoadWatch

/-- Dynamic (JSON-shaped) Python values, as produced by `json.loads` and
carried through the moderation verdict tuple. -/
inductive JsonVal where
  | null
  | bool (b : Bool)
  | num (q : ℚ)
  | str (s : String)
  | arr (elems : List JsonVal)
  | obj (fields : List (String × JsonVal))

/-- A parsed JSON object: the key/value pairs of a Python `dict`. -/
abbrev JObj := List (String × JsonVal)

/-- Python truthiness (`if x:`) of a JSON-shaped value. -/
def JsonVal.truthy : JsonVal → Bool
  | .null => false
  | .bool b => b
  | .num q => decide (q ≠ 0)
  | .str s => decide (s ≠ "")
  | .arr l => !l.isEmpty
  | .obj kvs => !kvs.isEmpty

/-- Python `dict.get(k, d)` on a parsed JSON object. -/
def jGet (kvs : JObj) (k : String) (d : JsonVal) : JsonVal :=
  match kvs.find? (fun p => p.1 == k) with
  | some p => p.2
  | none => d

/-- Outcome of the external moderation call `client.messages.create(...)`:
either the call raised an exception whose `str(e)` is `msg`, or it returned a
message whose first content block has the given text. -/
inductive AICallResult where
  | raised (msg : String)
  | returned (text : String)

/-- The 4-tuple `(is_approved, reason, confidence, flags)` returned by
`moderate_report_with_ai`.  Fields keep the dynamic (JSON-shaped) type they
have in Python. -/
structure Verdict where
  approved : JsonVal
  reason : JsonVal
  confidence : JsonVal
  flags : JsonVal

/-- Suffix of a character list starting at its first open brace, modelling
where `re.search` of the pattern open-brace dot-star close-brace (with
`re.DOTALL`) can start matching. -/
def dropToBrace : List Char → Option (List Char)
  | [] => none
  | c :: rest => if c = '{' then some (c :: rest) else dropToBrace rest

/-- Prefix of a character list up to and including its last close brace
(`none` when the list has no close brace), modelling the greedy dot-star of
the extraction pattern. -/
def takeToLastClose : List Char → Option (List Char)
  | [] => none
  | c :: rest =>
    match takeToLastClose rest with
    | some t => some (c :: t)
    | none => if c = '}' then some [c] else none

/-- Model of `re.search` with the brace-delimited pattern used by
`moderate_report_with_ai` under `re.DOTALL`: the matched group runs from the
first open brace of the text to the last close brace after it, and there is
no match when no such pair exists. -/
def findJsonObject (s : String) : Option String :=
  match dropToBrace s.toList with
  | none => none
  | some [] => none
  | some (c :: rest) =>
    match takeToLastClose rest with
    | none => none
    | some t => some (String.mk (c :: t))

/-- Model of `moderate_report_with_ai` (identical in `backend.py` and
`files/backend.py`).  The external service call is given by its outcome
`call`; `parse` models `json.loads` on the extracted group, with `.error m`
standing for a raised `JSONDecodeError` whose `str(e)` is `m` (the whole
`try` block, including the parse, is guarded by the same `except`).  The
report fields only influence the prompt sent to the external service, so they
do not appear: their effect is absorbed into `call`. -/
def moderate_report_with_ai (parse : String → Except String JObj)
    (call : AICallResult) : Verdict :=
  match call with
  | .raised msg =>
    { approved := .bool true,
      reason := .str ("AI unavailable, flagged for manual review: " ++ msg),
      confidence := .num (3/10),
      flags := .arr [.str ("ai_error")] }
  | .returned text =>
    match findJsonObject text with
    | some s =>
      match parse s with
      | .ok kvs =>
        { approved := jGet kvs ("approved") (.bool false),
          reason := jGet kvs ("reason") (.str ("AI moderation completed")),
          confidence := jGet kvs ("confidence") (.num (1/2)),
          flags := jGet kvs ("flags") (.arr []) }
      | .error m =>
        { approved := .bool true,
          reason := .str ("AI unavailable, flagged for manual review: " ++ m),
          confidence := .num (3/10),
          flags := .arr [.str ("ai_error")] }
    | none =>
      { approved := .bool true,
        reason := .str ("Unable to parse AI response, approved by default"),
        confidence := .num (1/2),
        flags := .arr [] }

/-- ASCII model of Python `str.upper`, character by character.  All plate
strings the backend handles are ASCII, where `Char.toUpper` agrees with
Python. -/
def pyUpper (s : String) : String := String.mk (s.toList.map Char.toUpper)

/-- Run of one to four digits filling the whole remaining input, the final
repeated digit class of the plate pattern.  The digit class is modelled as
ASCII `0`-`9`; the source is a Python `str` pattern without `re.ASCII`, whose
digit class also matches every Unicode decimal digit (category Nd, e.g.
Arabic-Indic digits), a set that depends on the runtime's Unicode tables.
The model is therefore faithful on ASCII inputs only, and every theorem
below that concludes a string is rejected carries an explicit ASCII
hypothesis. -/
def digitsRun (cs : List Char) : Bool :=
  decide (1 ≤ cs.length) && decide (cs.length ≤ 4) && cs.all Char.isDigit

/-- After the fixed region prefix and two digits, the plate grammar expects
one or two uppercase letters, a dash, and one to four digits reaching the end
of the (newline-stripped) input.  Greedy matching of `[A-Z]` one-or-two times
is deterministic here: the one-letter alternative applies exactly when the
second character is already the dash (a dash is not an uppercase letter, so
backtracking has no further choices). -/
def plateLetterTail : List Char → Bool
  | a :: b :: rest =>
    if b = '-' then a.isUpper && digitsRun rest
    else
      match rest with
      | '-' :: rest2 => a.isUpper && b.isUpper && digitsRun rest2
      | _ => false
  | _ => false

/-- Character-level model of the anchored Kerala plate pattern: the literal
region code `KL`, a dash, exactly two digits, a dash, then `plateLetterTail`.
Digits are modelled as ASCII digits; see `digitsRun` for the Unicode caveat
that scopes this model (and the theorems that rely on its completeness) to
ASCII inputs. -/
def matchPlateChars : List Char → Bool
  | 'K' :: 'L' :: '-' :: d1 :: d2 :: '-' :: rest =>
    d1.isDigit && d2.isDigit && plateLetterTail rest
  | _ => false

/-- Python `re.match` with a dollar-anchored pattern also succeeds when the
match ends just before a single final newline; this strips that newline so
the core pattern can be matched against the rest. -/
def stripFinalNewline (cs : List Char) : List Char :=
  match cs.getLast? with
  | some c => if c = '\n' then cs.dropLast else cs
  | none => cs

/-- Model of `validate_plate_number` (identical in `backend.py` and
`files/backend.py`): `bool(re.match(KERALA_PLATE_PATTERN, plate))` where the
pattern anchors the plate grammar at both ends.  The dollar anchor of Python
`re` also matches just before a final newline, hence the strip.  Faithful on
ASCII inputs; on non-ASCII input the source's digit class is wider (see
`digitsRun`). -/
def validate_plate_number (plate : String) : Bool :=
  matchPlateChars (stripFinalNewline plate.toList)

/-- Modelled from the spec's words for comparison with the source validator:
the exact grammar `KL-DD-LL-DDDD` (two digits, one or two uppercase letters,
one to four digits) spanning the whole string, with no newline tolerance. -/
def spec_plate_grammar (s : String) : Bool := matchPlateChars s.toList

/-- Whether every character of a string is ASCII.  Rejection claims about
the validator are stated for such strings only, because the source pattern's
digit class additionally matches non-ASCII Unicode decimal digits. -/
def asciiOnly (s : String) : Bool :=
  s.toList.all (fun c => decide (c.toNat ≤ 127))

/-- The `reports` row of `models.py`.  Time is modelled as an integer count of
seconds; `violations` is kept structurally (the source stores `json.dumps` of
the list and reads it back with `json.loads`, an identity round-trip at this
level); the moderation columns keep the dynamic values assigned to them. -/
structure Report where
  plate_number : String
  violations : List String
  location : String
  description : Option String
  photo_url : Option String
  user_id : Option Nat
  user_ip : Option String
  status : String
  moderation_approved : JsonVal
  moderation_reason : JsonVal
  moderation_confidence : JsonVal
  moderation_flags : JsonVal
  moderation_reviewed_at : Option Int
  created_at : Int

/-- Constructor semantics of `Report.__init__` plus the column defaults that
the database applies at insert time: `status` defaults to pending, the
moderation columns stay at their defaults (`approved` False, the rest NULL),
and `created_at` gets the current time (passed as `createdAt`). -/
def Report.init (plate_number : String) (violations : List String)
    (location : String) (description : Option String)
    (photo_url : Option String) (user_id : Option Nat)
    (user_ip : Option String) (createdAt : Int) : Report :=
  { plate_number, violations, location, description, photo_url, user_id,
    user_ip,
    status := "pending",
    moderation_approved := .bool false,
    moderation_reason := .null,
    moderation_confidence := .null,
    moderation_flags := .null,
    moderation_reviewed_at := none,
    created_at := createdAt }

/-- Model of `Report.set_moderation`: stores the verdict fields, stamps
`moderation_reviewed_at` with the current time `now`, and derives the
terminal status from the truthiness of `approved`. -/
def Report.set_moderation (r : Report) (approved reason confidence flags : JsonVal)
    (now : Int) : Report :=
  { r with
    moderation_approved := approved,
    moderation_reason := reason,
    moderation_confidence := confidence,
    moderation_flags := flags,
    moderation_reviewed_at := some now,
    status := if approved.truthy then "approved" else "rejected" }

/-- The `users` row of `user_model.py`; `reputation_score` is an exact
rational standing for the source's float. -/
structure User where
  id : Nat
  firebase_uid : String
  email : String
  display_name : Option String
  photo_url : Option String
  total_reports : Nat
  approved_reports : Nat
  rejected_reports : Nat
  reputation_score : ℚ
  is_banned : Bool
  ban_reason : Option String

/-- The fixed system-generated ban reason of `User.update_stats`. -/
def banMessage : String :=
  "Automatic ban due to low reputation score (multiple rejected reports)"

/-- Model of `User.update_stats`: bump `total_reports`; on approval bump
`approved_reports` and add 0.5 to reputation capped at 100, otherwise bump
`rejected_reports` and subtract 2 floored at 0; then auto-ban when the
resulting reputation is below 20 and the account is not already banned. -/
def User.update_stats (u : User) (approved : Bool) : User :=
  let u1 := { u with total_reports := u.total_reports + 1 }
  let u2 :=
    if approved then
      { u1 with
        approved_reports := u1.approved_reports + 1,
        reputation_score := min 100 (u1.reputation_score + 1/2) }
    else
      { u1 with
        rejected_reports := u1.rejected_reports + 1,
        reputation_score := max 0 (u1.reputation_score - 2) }
  if u2.reputation_score < 20 ∧ u2.is_banned = false then
    { u2 with is_banned := true, ban_reason := some banMessage }
  else u2

/-- Verified identity claims returned by `verify_firebase_token`. -/
structure Claims where
  uid : String
  email : String
  display_name : Option String
  photo_url : Option String

/-- The JSON body of a submission request.  A field is `none` when the key is
absent; the required-field check additionally tests truthiness, so an empty
string or list also counts as missing. -/
structure RequestData where
  plateNumber : Option String
  violations : Option (List String)
  location : Option String
  description : Option String
  photoUrl : Option String

/-- First required field that is absent or falsy, in the order the source
iterates `required_fields`. -/
def missingField (d : RequestData) : Option String :=
  if d.plateNumber.getD ("") = "" then some ("plateNumber")
  else if d.violations.getD [] = [] then some ("violations")
  else if d.location.getD ("") = "" then some ("location")
  else none

/-- Reporter identity used by the duplicate check: the account id when
authenticated, otherwise the request's remote address. -/
inductive UserIdent where
  | account (id : Nat)
  | ip (addr : String)

/-- Database state visible to one request: the two tables, plus the id the
next created user row receives. -/
structure ServerState where
  users : List User
  reports : List Report
  nextUserId : Nat

/-- Model of `check_duplicate_reports` from `files/backend.py`: count stored
reports with the same plate and the same identity column whose `created_at`
is at or after `now` minus the window (`timedelta(hours=h)`, here `h * 3600`
seconds).  The filter never looks at a report's status. -/
def check_duplicate_reports (reports : List Report) (plate : String)
    (ident : UserIdent) (now : Int) (time_window_hours : Int) : Nat :=
  let cutoff := now - time_window_hours * 3600
  (reports.filter (fun r =>
    r.plate_number == plate &&
    (match ident with
     | .account uid => r.user_id == some uid
     | .ip a => r.user_ip == some a) &&
    decide (cutoff ≤ r.created_at))).length

/-- HTTP-level outcome of `submit_report`, one constructor per return
statement: 400 missing field, 400 invalid plate, 403 banned, 429 duplicate
limit, 201 approved (carrying the confidence), 400 AI rejection (carrying
reason and flags), and the generic 500 of the `except` handler. -/
inductive SubmitResult where
  | missingField (f : String)
  | invalidPlate
  | banned (reason : Option String)
  | rateLimited
  | approvedOk (confidence : JsonVal)
  | aiRejected (reason flags : JsonVal)
  | serverError

/-- A user row freshly created from verified claims, with the column defaults
of `user_model.py` (zero counters, reputation 100, not banned). -/
def freshUser (id : Nat) (c : Claims) : User :=
  { id, firebase_uid := c.uid, email := c.email,
    display_name := c.display_name, photo_url := c.photo_url,
    total_reports := 0, approved_reports := 0, rejected_reports := 0,
    reputation_score := 100, is_banned := false, ban_reason := none }

/-- Tail of `submit_report` after identity resolution: duplicate check,
report construction, moderation, stats update, and the single commit.  `st0`
is the state to which a return without commit reverts (the session is torn
down uncommitted), `stW` the working state including a possibly flushed new
user.  `commitOk` is the persistence oracle: when false, `db.session.commit()`
raises, the handler rolls back, and a generic server error is returned. -/
def finishSubmission (st0 stW : ServerState) (muser : Option User)
    (ident : UserIdent) (plate : String) (d : RequestData) (addr : String)
    (now : Int) (parse : String → Except String JObj) (call : AICallResult)
    (commitOk : Bool) : SubmitResult × ServerState :=
  if 3 ≤ check_duplicate_reports stW.reports plate ident now 24 then
    (.rateLimited, st0)
  else
    let v := moderate_report_with_ai parse call
    let isApproved := v.approved.truthy
    let report :=
      (Report.init plate (d.violations.getD []) (d.location.getD (""))
        d.description d.photoUrl (muser.map User.id)
        (if muser.isSome then none else some addr) now).set_moderation
        v.approved v.reason v.confidence v.flags now
    let stC : ServerState :=
      { stW with
        users :=
          match muser with
          | some u =>
            stW.users.map (fun x =>
              if x.id == u.id then x.update_stats isApproved else x)
          | none => stW.users,
        reports := stW.reports ++ [report] }
    if commitOk then
      (if isApproved then .approvedOk v.confidence
       else .aiRejected v.reason v.flags, stC)
    else (.serverError, st0)

/-- Model of `submit_report` from `files/backend.py`: required-field check,
plate normalization and validation, identity resolution with the ban gate,
then `finishSubmission`.  `cu` is `request.current_user` as set by
`optional_auth`; `addr` is `request.remote_addr`. -/
def submit_report (st : ServerState) (d : RequestData) (cu : Option Claims)
    (addr : String) (now : Int) (parse : String → Except String JObj)
    (call : AICallResult) (commitOk : Bool) : SubmitResult × ServerState :=
  match missingField d with
  | some f => (.missingField f, st)
  | none =>
    let plate := pyUpper (d.plateNumber.getD (""))
    if validate_plate_number plate then
      match cu with
      | some c =>
        match st.users.find? (fun u => u.firebase_uid == c.uid) with
        | some u =>
          if u.is_banned then (.banned u.ban_reason, st)
          else
            finishSubmission st st (some u) (.account u.id) plate d addr now
              parse call commitOk
        | none =>
          let u := freshUser st.nextUserId c
          let stW : ServerState :=
            { st with
              users := st.users ++ [u],
              nextUserId := st.nextUserId + 1 }
          if u.is_banned then (.banned u.ban_reason, st)
          else
            finishSubmission st stW (some u) (.account u.id) plate d addr now
              parse call commitOk
      | none =>
        finishSubmission st st none (.ip addr) plate d addr now parse call
          commitOk
    else (.invalidPlate, st)

/-- The Authorization header of a request: absent, present without the
Bearer prefix, or a bearer token. -/
inductive AuthHeader where
  | absent
  | malformed (raw : String)
  | bearer (token : String)

/-- Model of the `optional_auth` decorator of `auth.py`: with a bearer
header, `request.current_user` becomes the verifier's result (which is `none`
exactly when verification failed); any other header shape yields `none`.  No
header shape makes the decorator reject the request. -/
def optional_auth (h : AuthHeader) (verify : String → Option Claims) :
    Option Claims :=
  match h with
  | .bearer t => verify t
  | _ => none

/-- A whole POST to the submission endpoint: `optional_auth` resolves the
header, then `submit_report` runs. -/
def handle_submit (st : ServerState) (d : RequestData) (h : AuthHeader)
    (verify : String → Option Claims) (addr : String) (now : Int)
    (parse : String → Except String JObj) (call : AICallResult)
    (commitOk : Bool) : SubmitResult × ServerState :=
  submit_report st d (optional_auth h verify) addr now parse call commitOk

/-- Per-violation tally over the approved reports of a plate, modelling the
`violation_counts` dictionary built by `get_reports_by_plate`. -/
def violationCounts (rs : List Report) (v : String) : Nat :=
  match rs with
  | [] => 0
  | r :: rest => r.violations.count v + violationCounts rest v

/-- The JSON body returned by the reports-by-plate endpoint. -/
structure PlateReportsResponse where
  plateNumber : String
  totalReports : Nat
  reports : List Report
  violationBreakdown : String → Nat
  safetyScore : Int

/-- Model of `get_reports_by_plate` from `files/backend.py`: uppercase the
path parameter, keep only approved reports for that plate, and derive the
histogram and the linear-decay safety score.  The source additionally orders
the rows by `created_at` descending; the order is irrelevant to every
property stated below, so the store order is kept. -/
def get_reports_by_plate (st : ServerState) (plate : String) :
    PlateReportsResponse :=
  let p := pyUpper plate
  let rs := st.reports.filter (fun r =>
    r.plate_number == p && r.status == "approved")
  { plateNumber := p,
    totalReports := rs.length,
    reports := rs,
    violationBreakdown := fun v => violationCounts rs v,
    safetyScore := max 0 (100 - (rs.length : Int) * 10) }

/-- Lifecycle well-formedness of a stored report: the moderation timestamp is
set exactly when the status has left pending. -/
def ReportWF (r : Report) : Prop :=
  r.moderation_reviewed_at ≠ none ↔ r.status ≠ "pending"

/-! Concrete fixtures used by the closed scenario runs and witnesses. -/

/-- A well-formed submission body, matching the spec's end-to-end example. -/
def goodData : RequestData :=
  { plateNumber := some ("KL-07-A-1234"),
    violations := some [("no_helmet")],
    location := some ("MG Road"),
    description := none,
    photoUrl := none }

/-- Fresh database: no users, no reports. -/
def emptyState : ServerState := { users := [], reports := [], nextUserId := 1 }

/-- A JSON parser oracle that parses any extracted group as the empty
object. -/
def okParse : String → Except String JObj := fun _ => .ok []

/-- A moderation call returning prose with no JSON object: the unparseable
fallback approves the report. -/
def okCall : AICallResult := .returned ("no json here")

/-- A moderation call returning an empty JSON object: every key missing, so
the key defaults apply and the report is rejected. -/
def rejCall : AICallResult := .returned (String.mk ['{', '}'])

/-- Anonymous submission of `goodData` that the adjudicator approves. -/
def anonSubmit (st : ServerState) (now : Int) : SubmitResult × ServerState :=
  submit_report st goodData none ("10.0.0.1") now okParse okCall true

/-- Anonymous submission of `goodData` that the adjudicator rejects. -/
def rejSubmit (st : ServerState) (now : Int) : SubmitResult × ServerState :=
  submit_report st goodData none ("10.0.0.1") now okParse rejCall true

/-- States after one, two and three approved anonymous submissions at times
0, 10 and 20. -/
def stA1 : ServerState := (anonSubmit emptyState 0).2

/-- State after the second approved submission. -/
def stA2 : ServerState := (anonSubmit stA1 10).2

/-- State after the third approved submission. -/
def stA3 : ServerState := (anonSubmit stA2 20).2

/-- States after one, two and three rejected anonymous submissions at times
0, 10 and 20. -/
def stR1 : ServerState := (rejSubmit emptyState 0).2

/-- State after the second rejected submission. -/
def stR2 : ServerState := (rejSubmit stR1 10).2

/-- State after the third rejected submission. -/
def stR3 : ServerState := (rejSubmit stR2 20).2

/-- A grammatical plate followed by a newline: Python's dollar anchor lets
`re.match` accept it. -/
def nlPlate : String := "KL-07-A-1234\n"

/-- An authenticated account sitting at reputation 21. -/
def user21 : User :=
  { id := 1, firebase_uid := ("uid21"), email := ("u21@example.com"),
    display_name := none, photo_url := none, total_reports := 10,
    approved_reports := 6, rejected_reports := 4, reputation_score := 21,
    is_banned := false, ban_reason := none }

/-- A banned account. -/
def bannedUser : User :=
  { id := 7, firebase_uid := ("uidB"), email := ("banned@example.com"),
    display_name := none, photo_url := none, total_reports := 9,
    approved_reports := 1, rejected_reports := 8, reputation_score := 10,
    is_banned := true, ban_reason := some banMessage }

/-- Database containing only the banned account. -/
def bannedState : ServerState :=
  { users := [bannedUser], reports := [], nextUserId := 8 }

/-- Verified claims matching the banned account. -/
def bannedClaims : Claims :=
  { uid := ("uidB"), email := ("banned@example.com"),
    display_name := none, photo_url := none }

/-- An already-approved stored report for the fixture plate. -/
def approvedReport (t : Int) : Report :=
  (Report.init ("KL-07-A-1234") [("no_helmet")] ("MG Road") none none none
    (some ("10.0.0.1")) t).set_moderation (.bool true) (.str ("ok"))
    (.num (9/10)) (.arr []) t

/-- Database with five approved reports for the fixture plate. -/
def plateState5 : ServerState :=
  { users := [], reports := List.replicate 5 (approvedReport 0),
    nextUserId := 1 }

/-- Database with ten approved reports for the fixture plate. -/
def plateState10 : ServerState :=
  { users := [], reports := List.replicate 10 (approvedReport 0),
    nextUserId := 1 }

/-- Database containing only the reputation-21 account. -/
def u21State : ServerState :=
  { users := [user21], reports := [], nextUserId := 2 }

/-- Verified claims matching the reputation-21 account. -/
def u21Claims : Claims :=
  { uid := ("uid21"), email := ("u21@example.com"),
    display_name := none, photo_url := none }

/-!
Helper lemmas: ASCII uppercasing, the plate grammar always ends in a digit
(so the newline strip is the identity on grammar strings), and the shape of
the report table after one submission.
-/

theorem char_toNat_ofNat_valid (n : Nat) (h : n.isValidChar) :
    (Char.ofNat n).toNat = n := by
  simp [Char.ofNat, h, Char.ofNatAux, Char.toNat, UInt32.toNat,
    UInt32.ofNatCore]

theorem char_toUpper_eq (c : Char) :
    Char.toUpper c =
      if c.toNat ≥ 97 ∧ c.toNat ≤ 122 then Char.ofNat (c.toNat - 32) else c :=
  rfl

theorem char_toUpper_idem (c : Char) : (c.toUpper).toUpper = c.toUpper := by
  rw [char_toUpper_eq c, char_toUpper_eq]
  by_cases h : c.toNat ≥ 97 ∧ c.toNat ≤ 122
  · have hv : (c.toNat - 32).isValidChar := by
      left
      omega
    have ht : (Char.ofNat (c.toNat - 32)).toNat = c.toNat - 32 :=
      char_toNat_ofNat_valid _ hv
    rw [if_pos h, ht]
    rw [if_neg]
    omega
  · rw [if_neg h, if_neg h]

theorem pyUpper_idem (s : String) : pyUpper (pyUpper s) = pyUpper s := by
  unfold pyUpper
  have hmap : ∀ l : List Char,
      l.map (fun c => (c.toUpper).toUpper) = l.map Char.toUpper := by
    intro l
    simp [char_toUpper_idem]
  simp only [String.toList]
  rw [List.map_map]
  exact congrArg String.mk (hmap s.data)

theorem all_digits_getLast : ∀ (l : List Char), l.all Char.isDigit = true →
    l ≠ [] → ∃ d, l.getLast? = some d ∧ d.isDigit = true
  | [], _, hne => absurd rfl hne
  | [a], h, _ => ⟨a, rfl, by simpa using h⟩
  | a :: b :: t, h, _ => by
    have h2 : (b :: t).all Char.isDigit = true := by
      simp only [List.all_cons, Bool.and_eq_true] at h ⊢
      exact h.2
    obtain ⟨d, hd, hdig⟩ := all_digits_getLast (b :: t) h2 (by simp)
    exact ⟨d, by rw [List.getLast?_cons_cons]; exact hd, hdig⟩

theorem digitsRun_ends_digit {l : List Char} (h : digitsRun l = true) :
    ∃ d, l.getLast? = some d ∧ d.isDigit = true := by
  unfold digitsRun at h
  simp only [Bool.and_eq_true, decide_eq_true_eq] at h
  refine all_digits_getLast l h.2 ?_
  intro hcon
  rw [hcon] at h
  simp at h

theorem cons_getLast_of_ne_nil {a : Char} {l : List Char} {d : Char}
    (hne : l ≠ []) (hd : l.getLast? = some d) :
    (a :: l).getLast? = some d := by
  cases l with
  | nil => exact absurd rfl hne
  | cons b t =>
    rw [List.getLast?_cons_cons]
    exact hd

theorem digitsRun_ne_nil {l : List Char} (h : digitsRun l = true) :
    l ≠ [] := by
  intro hcon
  rw [hcon] at h
  simp [digitsRun] at h

theorem plateLetterTail_ends_digit : ∀ (cs : List Char),
    plateLetterTail cs = true →
    ∃ d, cs.getLast? = some d ∧ d.isDigit = true := by
  intro cs h
  unfold plateLetterTail at h
  split at h
  next a b rest =>
    split at h
    next hb =>
      subst hb
      simp only [Bool.and_eq_true] at h
      obtain ⟨d, hd, hdig⟩ := digitsRun_ends_digit h.2
      have hne := digitsRun_ne_nil h.2
      exact ⟨d, cons_getLast_of_ne_nil (by simp [hne])
        (cons_getLast_of_ne_nil hne hd), hdig⟩
    next hb =>
      split at h
      next rest2 =>
        simp only [Bool.and_eq_true] at h
        obtain ⟨d, hd, hdig⟩ := digitsRun_ends_digit h.2
        have hne := digitsRun_ne_nil h.2
        exact ⟨d, cons_getLast_of_ne_nil (by simp)
          (cons_getLast_of_ne_nil (by simp [hne])
            (cons_getLast_of_ne_nil hne hd)), hdig⟩
      next => exact absurd h (by simp)
  next => exact absurd h (by simp)

theorem matchPlate_ends_digit {cs : List Char}
    (h : matchPlateChars cs = true) :
    ∃ d, cs.getLast? = some d ∧ d.isDigit = true := by
  unfold matchPlateChars at h
  split at h
  next d1 d2 rest =>
    simp only [Bool.and_eq_true] at h
    obtain ⟨d, hd, hdig⟩ := plateLetterTail_ends_digit rest h.2
    have hne : rest ≠ [] := by
      intro hcon
      rw [hcon] at h
      simp [plateLetterTail] at h
    refine ⟨d, ?_, hdig⟩
    exact cons_getLast_of_ne_nil (by simp)
      (cons_getLast_of_ne_nil (by simp)
        (cons_getLast_of_ne_nil (by simp)
          (cons_getLast_of_ne_nil (by simp)
            (cons_getLast_of_ne_nil (by simp [hne])
              (cons_getLast_of_ne_nil hne hd)))))
  next => exact absurd h (by simp)

theorem stripFinalNewline_of_grammar {cs : List Char}
    (h : matchPlateChars cs = true) : stripFinalNewline cs = cs := by
  obtain ⟨d, hd, hdig⟩ := matchPlate_ends_digit h
  unfold stripFinalNewline
  rw [hd]
  show (if d = '\n' then cs.dropLast else cs) = cs
  rw [if_neg]
  intro hcon
  rw [hcon] at hdig
  simp [Char.isDigit] at hdig

theorem eq_dropLast_concat {α : Type} : ∀ (l : List α) (c : α),
    l.getLast? = some c → l = l.dropLast ++ [c]
  | [], c, h => by simp at h
  | [a], c, h => by
    simp [List.getLast?] at h
    simp [h]
  | a :: b :: t, c, h => by
    rw [List.getLast?_cons_cons] at h
    have ih := eq_dropLast_concat (b :: t) c h
    calc a :: b :: t = a :: ((b :: t).dropLast ++ [c]) := by rw [← ih]
    _ = (a :: b :: t).dropLast ++ [c] := by simp [List.dropLast]

theorem strip_last_nl {cs : List Char} (h : cs.getLast? = some '\n') :
    stripFinalNewline cs = cs.dropLast := by
  unfold stripFinalNewline
  rw [h]
  show (if '\n' = '\n' then cs.dropLast else cs) = cs.dropLast
  rw [if_pos rfl]

theorem strip_last_ne {cs : List Char} {c : Char} (h : cs.getLast? = some c)
    (hc : c ≠ '\n') : stripFinalNewline cs = cs := by
  unfold stripFinalNewline
  rw [h]
  show (if c = '\n' then cs.dropLast else cs) = cs
  rw [if_neg hc]

theorem strip_none {cs : List Char} (h : cs.getLast? = none) :
    stripFinalNewline cs = cs := by
  unfold stripFinalNewline
  rw [h]

theorem submit_reports_shape (st : ServerState) (d : RequestData)
    (cu : Option Claims) (addr : String) (now : Int)
    (parse : String → Except String JObj) (call : AICallResult) (ok : Bool) :
    (submit_report st d cu addr now parse call ok).2.reports = st.reports ∨
    ∃ (r0 : Report) (v : Verdict),
      (submit_report st d cu addr now parse call ok).2.reports =
        st.reports ++
          [r0.set_moderation v.approved v.reason v.confidence v.flags now] := by
  unfold submit_report finishSubmission
  dsimp only
  repeat' split
  all_goals first
    | (left; rfl)
    | (right; exact ⟨_, _, rfl⟩)

/-- Claim C1: the moderation adjudicator's fallback policy.  If the external
call raises, the verdict is approved with confidence 0.3 and flag `ai_error`;
if the call succeeds but no JSON object can be found in the text, the verdict
is approved with confidence 0.5 and no flags; if an object is found and
parsed, each missing key defaults to approved false, reason
`AI moderation completed`, confidence 0.5, flags empty. -/
theorem moderation_fallback_policy (parse : String → Except String JObj) :
    (∀ msg, moderate_report_with_ai parse (.raised msg) =
      { approved := .bool true,
        reason := .str ("AI unavailable, flagged for manual review: " ++ msg),
        confidence := .num (3/10),
        flags := .arr [.str ("ai_error")] }) ∧
    (∀ text, findJsonObject text = none →
      moderate_report_with_ai parse (.returned text) =
      { approved := .bool true,
        reason := .str ("Unable to parse AI response, approved by default"),
        confidence := .num (1/2),
        flags := .arr [] }) ∧
    (∀ text s kvs, findJsonObject text = some s → parse s = .ok kvs →
      ((kvs.find? (fun p => p.1 == "approved")) = none →
        (moderate_report_with_ai parse (.returned text)).approved =
          .bool false) ∧
      ((kvs.find? (fun p => p.1 == "reason")) = none →
        (moderate_report_with_ai parse (.returned text)).reason =
          .str ("AI moderation completed")) ∧
      ((kvs.find? (fun p => p.1 == "confidence")) = none →
        (moderate_report_with_ai parse (.returned text)).confidence =
          .num (1/2)) ∧
      ((kvs.find? (fun p => p.1 == "flags")) = none →
        (moderate_report_with_ai parse (.returned text)).flags =
          .arr [])) := by
  refine ⟨fun msg => rfl, ?_, ?_⟩
  · intro text h
    simp only [moderate_report_with_ai, h]
  · intro text s kvs hf hp
    simp only [moderate_report_with_ai, hf, hp]
    refine ⟨?_, ?_, ?_, ?_⟩ <;>
      (intro h; simp [jGet, h])

/-- Witness for claim C1 at concrete inputs: a raised call, prose with no
JSON object, and an empty parsed object. -/
theorem moderation_fallback_policy_witness :
    moderate_report_with_ai okParse (.raised ("boom")) =
      { approved := .bool true,
        reason := .str ("AI unavailable, flagged for manual review: boom"),
        confidence := .num (3/10),
        flags := .arr [.str ("ai_error")] } ∧
    moderate_report_with_ai okParse okCall =
      { approved := .bool true,
        reason := .str ("Unable to parse AI response, approved by default"),
        confidence := .num (1/2),
        flags := .arr [] } ∧
    (moderate_report_with_ai okParse rejCall).approved = .bool false ∧
    (moderate_report_with_ai okParse rejCall).reason =
      .str ("AI moderation completed") := by
  obtain ⟨h1, h2, h3⟩ := moderation_fallback_policy okParse
  refine ⟨h1 ("boom"), h2 ("no json here") rfl, ?_, ?_⟩
  · exact ((h3 (String.mk ['{', '}']) (String.mk ['{', '}']) [] rfl rfl).1 rfl)
  · exact ((h3 (String.mk ['{', '}']) (String.mk ['{', '}']) [] rfl rfl).2.1
      rfl)

/-- Claim C2: the Duplicate Guard counts prior stored reports with the same
plate and identity inside the inclusive rolling 24-hour window, and the
submission is rate-limited exactly when that count is at least 3; three
submissions succeed, the fourth within the window fails, a fourth after the
window has elapsed succeeds, and a report exactly at the window boundary is
still counted. -/
theorem duplicate_guard_spec :
    (∀ (st : ServerState) (d : RequestData) (addr : String) (now : Int)
      (parse : String → Except String JObj) (call : AICallResult) (ok : Bool),
      missingField d = none →
      validate_plate_number (pyUpper (d.plateNumber.getD (""))) = true →
      ((submit_report st d none addr now parse call ok).1 = .rateLimited ↔
        3 ≤ check_duplicate_reports st.reports
          (pyUpper (d.plateNumber.getD (""))) (.ip addr) now 24)) ∧
    (∀ (st : ServerState) (d : RequestData) (c : Claims) (u : User)
      (addr : String) (now : Int) (parse : String → Except String JObj)
      (call : AICallResult) (ok : Bool),
      missingField d = none →
      validate_plate_number (pyUpper (d.plateNumber.getD (""))) = true →
      st.users.find? (fun x => x.firebase_uid == c.uid) = some u →
      u.is_banned = false →
      ((submit_report st d (some c) addr now parse call ok).1 =
          .rateLimited ↔
        3 ≤ check_duplicate_reports st.reports
          (pyUpper (d.plateNumber.getD (""))) (.account u.id) now 24)) ∧
    ((anonSubmit emptyState 0).1 = .approvedOk (.num (1/2)) ∧
     (anonSubmit stA1 10).1 = .approvedOk (.num (1/2)) ∧
     (anonSubmit stA2 20).1 = .approvedOk (.num (1/2)) ∧
     (anonSubmit stA3 30).1 = .rateLimited ∧
     (anonSubmit stA3 86401).1 = .approvedOk (.num (1/2))) ∧
    (check_duplicate_reports [approvedReport 0] ("KL-07-A-1234")
        (.ip ("10.0.0.1")) 86400 24 = 1 ∧
     check_duplicate_reports [approvedReport 0] ("KL-07-A-1234")
        (.ip ("10.0.0.1")) 86401 24 = 0) := by
  refine ⟨?_, ?_, ⟨rfl, rfl, rfl, rfl, rfl⟩, rfl, rfl⟩
  · intro st d addr now parse call ok hmf hv
    unfold submit_report
    simp only [hmf, hv]
    unfold finishSubmission
    dsimp only
    by_cases hdup : 3 ≤ check_duplicate_reports st.reports
        (pyUpper (d.plateNumber.getD (""))) (.ip addr) now 24
    · rw [if_pos trivial]
      rw [if_pos hdup]
      exact ⟨fun _ => hdup, fun _ => rfl⟩
    · rw [if_pos trivial, if_neg hdup]
      constructor
      · intro hcon
        split at hcon
        · split at hcon <;> simp at hcon
        · simp at hcon
      · intro hcon
        exact absurd hcon hdup
  · intro st d c u addr now parse call ok hmf hv hu hb
    unfold submit_report
    simp only [hmf, hv, hu, hb]
    unfold finishSubmission
    dsimp only
    by_cases hdup : 3 ≤ check_duplicate_reports st.reports
        (pyUpper (d.plateNumber.getD (""))) (.account u.id) now 24
    · rw [if_pos trivial]
      simp only [Bool.false_eq_true, if_false]
      rw [if_pos hdup]
      exact ⟨fun _ => hdup, fun _ => rfl⟩
    · rw [if_pos trivial]
      simp only [Bool.false_eq_true, if_false]
      rw [if_neg hdup]
      constructor
      · intro hcon
        split at hcon
        · split at hcon <;> simp at hcon
        · simp at hcon
      · intro hcon
        exact absurd hcon hdup

/-- Witness for claim C2: the fourth submission for the fixture plate and
address at time 30 is rate-limited, in agreement with the general
characterisation instantiated at that state. -/
theorem duplicate_guard_spec_witness :
    ((submit_report stA3 goodData none ("10.0.0.1") 30 okParse okCall
        true).1 = .rateLimited ↔
      3 ≤ check_duplicate_reports stA3.reports
        (pyUpper (goodData.plateNumber.getD (""))) (.ip ("10.0.0.1"))
        30 24) ∧
    (anonSubmit stA3 30).1 = .rateLimited := by
  obtain ⟨h1, h2, hsc, hb⟩ := duplicate_guard_spec
  exact ⟨h1 stA3 goodData ("10.0.0.1") 30 okParse okCall true rfl rfl,
    hsc.2.2.2.1⟩

/-- Claim C3: the Reputation Ledger increments `totalReports` on every
outcome; on approval it increments `approvedReports` and adds 0.5 to
reputation capped at 100; on rejection it increments `rejectedReports` and
subtracts 2 floored at 0; a resulting reputation below 20 on a not-yet-banned
account sets the ban flag with the fixed non-empty reason; a banned account
never has its ban cleared by a later outcome; and concretely an account at
reputation 21 that receives a rejection drops to 19, is banned, and stays
banned after a later approval. -/
theorem reputation_ledger_spec :
    (∀ (u : User) (a : Bool),
      (u.update_stats a).total_reports = u.total_reports + 1 ∧
      (a = true →
        (u.update_stats a).approved_reports = u.approved_reports + 1 ∧
        (u.update_stats a).rejected_reports = u.rejected_reports ∧
        (u.update_stats a).reputation_score =
          min 100 (u.reputation_score + 1/2)) ∧
      (a = false →
        (u.update_stats a).rejected_reports = u.rejected_reports + 1 ∧
        (u.update_stats a).approved_reports = u.approved_reports ∧
        (u.update_stats a).reputation_score =
          max 0 (u.reputation_score - 2)) ∧
      ((u.update_stats a).reputation_score < 20 → u.is_banned = false →
        (u.update_stats a).is_banned = true ∧
        (u.update_stats a).ban_reason = some banMessage ∧
        banMessage ≠ "") ∧
      (u.is_banned = true → (u.update_stats a).is_banned = true)) ∧
    ((user21.update_stats false).reputation_score = 19 ∧
     (user21.update_stats false).is_banned = true ∧
     (user21.update_stats false).ban_reason = some banMessage ∧
     banMessage ≠ "" ∧
     ((user21.update_stats false).update_stats true).is_banned = true) := by
  constructor
  · intro u a
    unfold User.update_stats
    dsimp only
    split
    next ha =>
      split
      next hban =>
        refine ⟨rfl, fun _ => ⟨rfl, rfl, rfl⟩, fun hcon => ?_,
          fun _ _ => ⟨rfl, rfl, by decide⟩, fun _ => rfl⟩
        rw [ha] at hcon
        exact absurd hcon (by simp)
      next hban =>
        refine ⟨rfl, fun _ => ⟨rfl, rfl, rfl⟩, fun hcon => ?_, ?_,
          fun hb => hb⟩
        · rw [ha] at hcon
          exact absurd hcon (by simp)
        · intro hlt hnb
          exact absurd ⟨hlt, hnb⟩ hban
    next ha =>
      have ha2 : a = false := by
        cases a
        · rfl
        · exact absurd rfl ha
      split
      next hban =>
        refine ⟨rfl, fun hcon => ?_, fun _ => ⟨rfl, rfl, rfl⟩,
          fun _ _ => ⟨rfl, rfl, by decide⟩, fun _ => rfl⟩
        rw [ha2] at hcon
        exact absurd hcon (by simp)
      next hban =>
        refine ⟨rfl, fun hcon => ?_, fun _ => ⟨rfl, rfl, rfl⟩, ?_,
          fun hb => hb⟩
        · rw [ha2] at hcon
          exact absurd hcon (by simp)
        · intro hlt hnb
          exact absurd ⟨hlt, hnb⟩ hban
  · unfold User.update_stats user21
    dsimp only
    norm_num [banMessage]
    decide

/-- Witness for claim C3: the general part instantiated at the
reputation-21 account receiving a rejection, with the below-20 hypothesis
discharged from the concrete computation. -/
theorem reputation_ledger_spec_witness :
    (user21.update_stats false).total_reports = user21.total_reports + 1 ∧
    (user21.update_stats false).rejected_reports =
      user21.rejected_reports + 1 ∧
    (user21.update_stats false).reputation_score =
      max 0 (user21.reputation_score - 2) ∧
    (user21.update_stats false).is_banned = true ∧
    (user21.update_stats false).ban_reason = some banMessage := by
  obtain ⟨hgen, hconc⟩ := reputation_ledger_spec
  obtain ⟨ht, hap, hrej, hban, hper⟩ := hgen user21 false
  have hlt : (user21.update_stats false).reputation_score < 20 := by
    rw [hconc.1]
    norm_num
  exact ⟨ht, (hrej rfl).1, (hrej rfl).2.2, (hban hlt rfl).1,
    (hban hlt rfl).2.1⟩

/-- Claim C4 counterexample: the validator accepts a grammatical plate
followed by a newline, a string outside the spec's grammar, because the
dollar anchor of Python `re` also matches just before a final newline. -/
theorem plate_validator_newline_counterexample :
    validate_plate_number nlPlate = true ∧
    spec_plate_grammar nlPlate = false :=
  ⟨rfl, rfl⟩

/-- Claim C4 as amended: every grammar string is accepted, and among ASCII
strings the validator accepts exactly the grammar strings plus the strings
that are a grammar string followed by one final newline, rejecting
everything else.  The ASCII restriction is forced by the source: its digit
class is a Python `str` pattern class that also matches non-ASCII Unicode
decimal digits (a runtime-dependent set), so only the ASCII fragment of the
rejection claim is true of the program. -/
theorem plate_validator_amended :
    (∀ s : String,
      spec_plate_grammar s = true → validate_plate_number s = true) ∧
    (∀ s : String, asciiOnly s = true →
      (validate_plate_number s = true ↔
        (spec_plate_grammar s = true ∨
          ∃ t : String, s = t ++ "\n" ∧ spec_plate_grammar t = true))) := by
  have hmain : ∀ s : String,
      validate_plate_number s = true ↔
        (spec_plate_grammar s = true ∨
          ∃ t : String, s = t ++ "\n" ∧ spec_plate_grammar t = true) := by
    intro s
    unfold validate_plate_number spec_plate_grammar
    constructor
    · intro h
      cases hl : s.toList.getLast? with
      | none =>
        rw [strip_none hl] at h
        left
        exact h
      | some c =>
        by_cases hc : c = '\n'
        · subst hc
          rw [strip_last_nl hl] at h
          right
          have hdata : s.toList = s.toList.dropLast ++ ['\n'] :=
            eq_dropLast_concat _ _ hl
          refine ⟨String.mk s.toList.dropLast, ?_, h⟩
          show s = String.mk s.toList.dropLast ++ "\n"
          have hmk : String.mk s.toList.dropLast ++ "\n" =
              String.mk (s.toList.dropLast ++ ['\n']) := rfl
          rw [hmk, ← hdata]
          rfl
        · rw [strip_last_ne hl hc] at h
          left
          exact h
    · rintro (h | ⟨t, rfl, ht⟩)
      · rw [stripFinalNewline_of_grammar h]
        exact h
      · have htl : (t ++ "\n").toList = t.toList ++ ['\n'] := rfl
        rw [htl,
          strip_last_nl (show (t.toList ++ ['\n']).getLast? = some '\n' from
            List.getLast?_concat _),
          List.dropLast_concat]
        exact ht
  exact ⟨fun s h => (hmain s).mpr (Or.inl h), fun s _ => hmain s⟩

/-- Witness for the amended claim C4: the newline plate is ASCII, the plain
fixture plate is a grammar string and is accepted, and the characterisation
holds at the newline plate. -/
theorem plate_validator_amended_witness :
    asciiOnly nlPlate = true ∧
    spec_plate_grammar ("KL-07-A-1234") = true ∧
    validate_plate_number ("KL-07-A-1234") = true ∧
    (validate_plate_number nlPlate = true ↔
      (spec_plate_grammar nlPlate = true ∨
        ∃ t : String, nlPlate = t ++ "\n" ∧ spec_plate_grammar t = true)) := by
  obtain ⟨h1, h2⟩ := plate_validator_amended
  exact ⟨by decide, rfl, h1 ("KL-07-A-1234") rfl, h2 nlPlate (by decide)⟩

/-- Claim C5 counterexample: a submission carrying a present-but-invalid
bearer token is not rejected; it runs exactly like a request with no
credential, is approved, and is stored under the caller's network address. -/
theorem invalid_token_anonymous_counterexample :
    handle_submit emptyState goodData (.bearer ("badtoken")) (fun _ => none)
        ("10.0.0.1") 0 okParse okCall true =
      handle_submit emptyState goodData .absent (fun _ => none)
        ("10.0.0.1") 0 okParse okCall true ∧
    (handle_submit emptyState goodData (.bearer ("badtoken")) (fun _ => none)
        ("10.0.0.1") 0 okParse okCall true).1 = .approvedOk (.num (1/2)) ∧
    (handle_submit emptyState goodData (.bearer ("badtoken")) (fun _ => none)
        ("10.0.0.1") 0 okParse okCall true).2.reports.map Report.user_ip =
      [some ("10.0.0.1")] :=
  ⟨rfl, rfl, rfl⟩

/-- Claim C5 as amended: `optional_auth` maps a present-but-invalid bearer
credential to no identity, so such a request proceeds as an anonymous
identity keyed by network address, indistinguishable from a request with no
credential at all; the submission endpoint never rejects for an invalid
credential. -/
theorem optional_auth_invalid_as_anonymous (token : String)
    (verify : String → Option Claims) (hv : verify token = none) :
    optional_auth (.bearer token) verify = none ∧
    optional_auth .absent verify = none ∧
    (∀ (st : ServerState) (d : RequestData) (addr : String) (now : Int)
      (parse : String → Except String JObj) (call : AICallResult) (ok : Bool),
      handle_submit st d (.bearer token) verify addr now parse call ok =
        handle_submit st d .absent verify addr now parse call ok) := by
  refine ⟨?_, rfl, ?_⟩
  · unfold optional_auth
    exact hv
  · intro st d addr now parse call ok
    unfold handle_submit optional_auth
    show submit_report st d (verify token) addr now parse call ok =
      submit_report st d none addr now parse call ok
    rw [hv]

/-- Witness for the amended claim C5 at a concrete failing verifier. -/
theorem optional_auth_invalid_as_anonymous_witness :
    optional_auth (.bearer ("badtoken")) (fun _ => none) = none ∧
    handle_submit emptyState goodData (.bearer ("badtoken")) (fun _ => none)
        ("10.0.0.1") 0 okParse okCall true =
      handle_submit emptyState goodData .absent (fun _ => none)
        ("10.0.0.1") 0 okParse okCall true := by
  obtain ⟨h1, h2, h3⟩ :=
    optional_auth_invalid_as_anonymous ("badtoken") (fun _ => none) rfl
  exact ⟨h1, h3 emptyState goodData ("10.0.0.1") 0 okParse okCall true⟩

/-- Claim C6: submission writes are atomic.  When the commit oracle fails
the state is exactly the pre-request state, and any branch that would have
changed the state instead reports a generic server error; when the commit
succeeds, either nothing changed or the new report and the matching account
update (reputation, counters, ban flag) appear together, and an anonymous
submission never touches the user table. -/
theorem submission_atomicity (st : ServerState) (d : RequestData)
    (cu : Option Claims) (addr : String) (now : Int)
    (parse : String → Except String JObj) (call : AICallResult) :
    ((submit_report st d cu addr now parse call false).2 = st) ∧
    ((submit_report st d cu addr now parse call true).2 ≠ st →
      (submit_report st d cu addr now parse call false).1 = .serverError) ∧
    (∀ (c : Claims) (u : User), cu = some c →
      st.users.find? (fun x => x.firebase_uid == c.uid) = some u →
      ((submit_report st d cu addr now parse call true).2 = st ∨
        ∃ r, (submit_report st d cu addr now parse call true).2.reports =
            st.reports ++ [r] ∧ r.user_id = some u.id ∧
          (submit_report st d cu addr now parse call true).2.users =
            st.users.map (fun x =>
              if x.id == u.id then
                x.update_stats
                  ((moderate_report_with_ai parse call).approved.truthy)
              else x) ∧
          (submit_report st d cu addr now parse call true).2.nextUserId =
            st.nextUserId)) ∧
    (cu = none →
      (submit_report st d cu addr now parse call true).2.users = st.users ∧
      ((submit_report st d cu addr now parse call true).2 = st ∨
        ∃ r, (submit_report st d cu addr now parse call true).2.reports =
          st.reports ++ [r] ∧ r.user_id = none)) := by
  refine ⟨?_, ?_, ?_, ?_⟩
  · unfold submit_report finishSubmission
    dsimp only
    repeat' split
    all_goals first
      | rfl
      | simp_all
  · unfold submit_report finishSubmission
    dsimp only
    repeat' split
    all_goals first
      | (intro hne; first | rfl | (exact absurd rfl hne))
      | simp_all
  · intro c u hcu hu
    subst hcu
    unfold submit_report finishSubmission
    dsimp only
    simp only [hu]
    repeat' split
    all_goals first
      | (left; rfl)
      | (right; exact ⟨_, rfl, rfl, rfl, rfl⟩)
  · intro hcu
    subst hcu
    unfold submit_report finishSubmission
    dsimp only
    constructor
    · repeat' split
      all_goals rfl
    · repeat' split
      all_goals first
        | (left; rfl)
        | (right; exact ⟨_, rfl, rfl⟩)

/-- Witness for claim C6: with a failing commit the anonymous submission
rolls back to the empty state and reports a server error; and at the
reputation-21 account's state a successful authenticated run produces the
paired report-and-account write or nothing. -/
theorem submission_atomicity_witness :
    (submit_report emptyState goodData none ("10.0.0.1") 0 okParse okCall
        false).2 = emptyState ∧
    (submit_report emptyState goodData none ("10.0.0.1") 0 okParse okCall
        false).1 = .serverError ∧
    (submit_report emptyState goodData none ("10.0.0.1") 0 okParse okCall
        true).2.users = emptyState.users ∧
    ((submit_report u21State goodData (some u21Claims) ("10.0.0.1") 0
        okParse okCall true).2 = u21State ∨
      ∃ r, (submit_report u21State goodData (some u21Claims) ("10.0.0.1") 0
          okParse okCall true).2.reports = u21State.reports ++ [r] ∧
        r.user_id = some user21.id ∧
        (submit_report u21State goodData (some u21Claims) ("10.0.0.1") 0
            okParse okCall true).2.users =
          u21State.users.map (fun x =>
            if x.id == user21.id then
              x.update_stats
                ((moderate_report_with_ai okParse okCall).approved.truthy)
            else x) ∧
        (submit_report u21State goodData (some u21Claims) ("10.0.0.1") 0
            okParse okCall true).2.nextUserId = u21State.nextUserId) := by
  obtain ⟨hA, hB, hC, hD⟩ :=
    submission_atomicity emptyState goodData none ("10.0.0.1") 0 okParse
      okCall
  obtain ⟨hA2, hB2, hC2, hD2⟩ :=
    submission_atomicity u21State goodData (some u21Claims) ("10.0.0.1") 0
      okParse okCall
  refine ⟨hA, hB ?_, (hD rfl).1, hC2 u21Claims user21 rfl rfl⟩
  intro h
  have h2 : (1 : Nat) = 0 := congrArg (fun s => s.reports.length) h
  exact absurd h2 (by decide)

/-- Claim C7: a submission by an authenticated banned account is rejected
with the stored ban reason before any further processing: the returned state
is exactly the input state, and the outcome does not depend on the duplicate
count, the moderation oracle, or the commit oracle. -/
theorem banned_account_gating (st : ServerState) (d : RequestData)
    (c : Claims) (u : User) (addr : String) (now : Int)
    (parse : String → Except String JObj) (call : AICallResult) (ok : Bool)
    (hmf : missingField d = none)
    (hv : validate_plate_number (pyUpper (d.plateNumber.getD (""))) = true)
    (hu : st.users.find? (fun x => x.firebase_uid == c.uid) = some u)
    (hb : u.is_banned = true) :
    submit_report st d (some c) addr now parse call ok =
      (.banned u.ban_reason, st) := by
  unfold submit_report
  simp only [hmf, hv, hu, hb]
  rfl

/-- Witness for claim C7: the banned fixture account's submission is
rejected with its stored ban reason and the state is untouched. -/
theorem banned_account_gating_witness :
    submit_report bannedState goodData (some bannedClaims) ("10.0.0.1") 0
        okParse okCall true =
      (.banned (some banMessage), bannedState) := by
  have h := banned_account_gating bannedState goodData bannedClaims
    bannedUser ("10.0.0.1") 0 okParse okCall true rfl rfl rfl rfl
  exact h

/-- Claim C8: a fresh Report starts with status pending and no moderation
timestamp; `set_moderation` stamps the timestamp together with a terminal
status (approved exactly when the verdict is approved, else rejected, never
pending); the pipeline never mutates stored reports; and the invariant
`reviewedAt set iff status is not pending` is preserved across every
submission. -/
theorem report_lifecycle_invariant :
    (∀ pn vs loc desc ph uid uip t,
      (Report.init pn vs loc desc ph uid uip t).status = "pending" ∧
      (Report.init pn vs loc desc ph uid uip t).moderation_reviewed_at =
        none) ∧
    (∀ (r : Report) (a re c f : JsonVal) (t : Int),
      (r.set_moderation a re c f t).moderation_reviewed_at = some t ∧
      (r.set_moderation a re c f t).status =
        (if a.truthy then "approved" else "rejected") ∧
      (r.set_moderation a re c f t).status ≠ "pending") ∧
    (∀ st d cu addr now parse call ok (r : Report), r ∈ st.reports →
      r ∈ (submit_report st d cu addr now parse call ok).2.reports) ∧
    (∀ st d cu addr now parse call ok,
      (∀ r ∈ st.reports, ReportWF r) →
      ∀ r ∈ (submit_report st d cu addr now parse call ok).2.reports,
        ReportWF r) := by
  refine ⟨fun pn vs loc desc ph uid uip t => ⟨rfl, rfl⟩, ?_, ?_, ?_⟩
  · intro r a re c f t
    refine ⟨rfl, rfl, ?_⟩
    show (if a.truthy then "approved" else "rejected") ≠ "pending"
    split
    · decide
    · decide
  · intro st d cu addr now parse call ok r hr
    rcases submit_reports_shape st d cu addr now parse call ok with
      h | ⟨r0, v, h⟩
    · rw [h]
      exact hr
    · rw [h]
      exact List.mem_append_left _ hr
  · intro st d cu addr now parse call ok hwf r hr
    rcases submit_reports_shape st d cu addr now parse call ok with
      h | ⟨r0, v, h⟩
    · rw [h] at hr
      exact hwf r hr
    · rw [h] at hr
      rcases List.mem_append.mp hr with hold | hnew
      · exact hwf r hold
      · have heq : r =
            r0.set_moderation v.approved v.reason v.confidence v.flags now :=
          by simpa using hnew
        subst heq
        unfold ReportWF Report.set_moderation
        constructor
        · intro _
          show (if v.approved.truthy then "approved" else "rejected") ≠
            "pending"
          split
          · decide
          · decide
        · intro _
          simp

/-- Witness for claim C8: a concrete fresh report is pending and
unstamped, a stored report survives a submission, and it satisfies the
lifecycle invariant in the post-submission state. -/
theorem report_lifecycle_invariant_witness :
    (Report.init ("KL-07-A-1234") [("no_helmet")] ("MG Road") none none none
        (some ("10.0.0.1")) 0).status = "pending" ∧
    approvedReport 0 ∈ (submit_report plateState5 goodData none ("10.0.0.1")
        0 okParse okCall true).2.reports ∧
    ReportWF (approvedReport 0) := by
  obtain ⟨h1, h2, h3, h4⟩ := report_lifecycle_invariant
  have hmem : approvedReport 0 ∈ plateState5.reports :=
    List.mem_replicate.mpr ⟨by decide, rfl⟩
  have hwf : ∀ r ∈ plateState5.reports, ReportWF r := by
    intro r hr
    have hr2 : r = approvedReport 0 := List.eq_of_mem_replicate hr
    subst hr2
    unfold ReportWF
    constructor
    · intro _
      decide
    · intro _
      decide
  refine ⟨(h1 ("KL-07-A-1234") [("no_helmet")] ("MG Road") none none none
      (some ("10.0.0.1")) 0).1, ?_, ?_⟩
  · exact h3 plateState5 goodData none ("10.0.0.1") 0 okParse okCall true
      (approvedReport 0) hmem
  · exact h4 plateState5 goodData none ("10.0.0.1") 0 okParse okCall true
      hwf (approvedReport 0)
      (h3 plateState5 goodData none ("10.0.0.1") 0 okParse okCall true
        (approvedReport 0) hmem)

/-- Claim C9: the reports-by-plate endpoint uppercases the queried plate (so
lookups are case-insensitive against stored uppercase plates), returns only
approved reports for that plate, and derives the safety score as
`max 0 (100 - 10 n)` from the number `n` of returned reports, so 5 approved
reports give 50 and 10 or more give 0. -/
theorem reports_by_plate_spec :
    (∀ (st : ServerState) (p : String) (r : Report),
      r ∈ (get_reports_by_plate st p).reports →
      r.status = "approved" ∧ r.plate_number = pyUpper p) ∧
    (∀ (st : ServerState) (p : String),
      get_reports_by_plate st p = get_reports_by_plate st (pyUpper p)) ∧
    (∀ (st : ServerState) (p : String),
      (get_reports_by_plate st p).totalReports = 5 →
      (get_reports_by_plate st p).safetyScore = 50) ∧
    (∀ (st : ServerState) (p : String),
      10 ≤ (get_reports_by_plate st p).totalReports →
      (get_reports_by_plate st p).safetyScore = 0) ∧
    (∀ (st : ServerState) (p : String),
      (get_reports_by_plate st p).safetyScore =
        max 0 (100 - ((get_reports_by_plate st p).totalReports : Int) *
          10)) := by
  refine ⟨?_, ?_, ?_, ?_, ?_⟩
  · intro st p r hr
    unfold get_reports_by_plate at hr
    dsimp only at hr
    have hmem := List.of_mem_filter hr
    simp only [Bool.and_eq_true, beq_iff_eq] at hmem
    exact ⟨hmem.2, hmem.1⟩
  · intro st p
    unfold get_reports_by_plate
    rw [pyUpper_idem]
  · intro st p h
    unfold get_reports_by_plate at h ⊢
    dsimp only at h ⊢
    rw [h]
    rfl
  · intro st p h
    unfold get_reports_by_plate at h ⊢
    dsimp only at h ⊢
    rw [max_eq_left]
    omega
  · intro st p
    rfl

/-- Witness for claim C9: five stored approved reports give safety score
50, ten give 0, and a lowercase query returns the same response as the
uppercased one. -/
theorem reports_by_plate_spec_witness :
    ((get_reports_by_plate plateState5 ("kl-07-a-1234")).totalReports = 5 ∧
     (get_reports_by_plate plateState5 ("kl-07-a-1234")).safetyScore = 50) ∧
    ((get_reports_by_plate plateState10 ("kl-07-a-1234")).totalReports =
        10 ∧
     (get_reports_by_plate plateState10 ("kl-07-a-1234")).safetyScore = 0) ∧
    get_reports_by_plate plateState5 ("kl-07-a-1234") =
      get_reports_by_plate plateState5 (pyUpper ("kl-07-a-1234")) := by
  obtain ⟨h1, h2, h3, h4, h5⟩ := reports_by_plate_spec
  refine ⟨⟨rfl, h3 plateState5 ("kl-07-a-1234") rfl⟩,
    ⟨rfl, h4 plateState10 ("kl-07-a-1234") (by decide)⟩,
    h2 plateState5 ("kl-07-a-1234")⟩

/-- Claim C10: once a submission passes validation, the ban gate and the
duplicate check, the report is committed whatever the verdict — a rejected
verdict stores the report with status rejected and returns the AI-rejection
response; the duplicate count is blind to report status; and three rejected
submissions for the same plate and address make the fourth rate-limited. -/
theorem rejected_reports_persist_and_throttle :
    (∀ (st0 stW : ServerState) (muser : Option User) (ident : UserIdent)
      (plate : String) (d : RequestData) (addr : String) (now : Int)
      (parse : String → Except String JObj) (call : AICallResult),
      ¬ 3 ≤ check_duplicate_reports stW.reports plate ident now 24 →
      ∃ r, (finishSubmission st0 stW muser ident plate d addr now parse call
          true).2.reports = stW.reports ++ [r] ∧
        r.plate_number = plate ∧
        ((moderate_report_with_ai parse call).approved.truthy = false →
          r.status = "rejected" ∧
          (finishSubmission st0 stW muser ident plate d addr now parse call
            true).1 = .aiRejected (moderate_report_with_ai parse call).reason
              (moderate_report_with_ai parse call).flags)) ∧
    (∀ (rs : List Report) (s plate : String) (ident : UserIdent)
      (now h : Int),
      check_duplicate_reports (rs.map (fun r => { r with status := s }))
          plate ident now h =
        check_duplicate_reports rs plate ident now h) ∧
    ((rejSubmit emptyState 0).1 =
        .aiRejected (.str ("AI moderation completed")) (.arr []) ∧
     stR3.reports.map Report.status =
        [("rejected"), ("rejected"), ("rejected")] ∧
     (rejSubmit stR3 30).1 = .rateLimited) := by
  refine ⟨?_, ?_, rfl, rfl, rfl⟩
  · intro st0 stW muser ident plate d addr now parse call hdup
    unfold finishSubmission
    dsimp only
    rw [if_neg hdup, if_pos rfl]
    refine ⟨_, rfl, rfl, ?_⟩
    intro htr
    constructor
    · show (if (moderate_report_with_ai parse call).approved.truthy then
          ("approved" : String) else "rejected") = "rejected"
      rw [htr]
      rfl
    · show (if (moderate_report_with_ai parse call).approved.truthy = true
          then
          SubmitResult.approvedOk
            (moderate_report_with_ai parse call).confidence
        else .aiRejected (moderate_report_with_ai parse call).reason
          (moderate_report_with_ai parse call).flags) =
        .aiRejected (moderate_report_with_ai parse call).reason
          (moderate_report_with_ai parse call).flags
      rw [htr]
      rfl
  · intro rs s plate ident now h
    unfold check_duplicate_reports
    dsimp only
    rw [List.filter_map, List.length_map]
    rfl

/-- Witness for claim C10: at the empty store, a rejected submission is
still stored (under the fixture plate) and answered with the AI-rejection
response; rewriting every stored status leaves the duplicate count
unchanged; and the fourth rejected submission is rate-limited. -/
theorem rejected_reports_persist_and_throttle_witness :
    (finishSubmission emptyState emptyState none (.ip ("10.0.0.1"))
        ("KL-07-A-1234") goodData ("10.0.0.1") 0 okParse rejCall
        true).1 = .aiRejected (.str ("AI moderation completed")) (.arr []) ∧
    check_duplicate_reports
        (stR3.reports.map (fun r => { r with status := ("weird") }))
        ("KL-07-A-1234") (.ip ("10.0.0.1")) 30 24 =
      check_duplicate_reports stR3.reports ("KL-07-A-1234")
        (.ip ("10.0.0.1")) 30 24 ∧
    (rejSubmit stR3 30).1 = .rateLimited := by
  obtain ⟨ha, hb, hsc⟩ := rejected_reports_persist_and_throttle
  obtain ⟨r, hrep, hplate, himp⟩ :=
    ha emptyState emptyState none (.ip ("10.0.0.1")) ("KL-07-A-1234")
      goodData ("10.0.0.1") 0 okParse rejCall (by decide)
  exact ⟨(himp rfl).2,
    hb stR3.reports ("weird") ("KL-07-A-1234") (.ip ("10.0.0.1")) 30 24,
    hsc.2.2⟩

end RoadWatch
